import Mathlib

/-!
Shallow embedding of the rent-or-buy projection engine
(`src/web/src/lib/calculator.ts`) and verification of its specification.

Numbers are modelled as exact rationals (`ℚ`); the one place the source
takes a fractional power (`Math.pow(base, remainingMonths/12)` in
`calculateAssetValue`) is modelled over `ℝ` with `Real.rpow`.
JavaScript `NaN` arising from an out-of-bounds array read
(`undefined` propagating through arithmetic) is modelled by `Option`:
`none` is NaN/undefined, and every arithmetic operation on `none`
yields `none`, exactly as NaN propagates.  Division by zero cannot be
hit by any theorem below except where explicitly discussed.
-/

/-- Scenario selector, from `types.ts`. -/
inductive ScenarioType where
  | buy_vs_rent
  | sell_vs_keep
  | payoff_vs_invest
deriving DecidableEq, Repr

/-- The flat input record, from `types.ts` (`CalculatorInputs`).
Month counts and year counts are natural numbers; money and rate
fields are exact rationals; TypeScript optional fields are `Option`. -/
structure CalculatorInputs where
  scenario : ScenarioType
  inflationRate : ℚ
  investmentReturnRate : ℚ
  projectionYears : ℕ
  purchasePrice : ℚ
  currentMarketValue : Option ℚ
  annualInsurance : ℚ
  annualTaxes : ℚ
  annualIncome : ℚ
  appreciationRate : List ℚ
  loanAmount : ℚ
  loanRate : ℚ
  loanTerm : ℕ
  remainingLoanTerm : Option ℕ
  includeRefinance : Option Bool
  payoffBalance : Option ℚ
  closingCosts : Option ℚ
  mortgageInterestDeduction : ℚ
  extraMonthlyPayment : Option ℚ
  extraUpfrontPayment : Option ℚ
  recalculatePayment : Option Bool
  rentDeposit : ℚ
  monthlyRent : ℚ
  annualRentCosts : ℚ
  otherAnnualCosts : ℚ
  includeSelling : Bool
  includeRentingSell : Option Bool
  agentCommission : ℚ
  stagingCosts : ℚ
  taxFreeLimits : List ℚ
  capitalGainsTax : ℚ
deriving DecidableEq

/-- Embedding of `calculateMonthlyPayment` (calculator.ts lines 3-13). -/
def calculateMonthlyPayment (principal monthlyRate : ℚ) (months : ℕ) : ℚ :=
  if monthlyRate = 0 then
    principal / months
  else
    let factor := (1 + monthlyRate) ^ months
    principal * (monthlyRate * factor) / (factor - 1)

/-- A display period row, from `types.ts` (`Period`). -/
structure Period where
  label : String
  months : ℕ
deriving DecidableEq, Repr

/-- JavaScript `s.padStart(3)` (pad on the left with spaces to length 3). -/
def padStart3 (s : String) : String :=
  String.mk (List.replicate (3 - s.length) ' ') ++ s

/-- Embedding of `getPeriods` (calculator.ts lines 15-36): one row per year
`0..projectionYears`; the row whose month count equals a positive
`loanDuration` gets the `X…y` loan-term label instead of the plain label. -/
def getPeriods (loanDuration projectionYears : ℕ) : List Period :=
  let maxMonths := projectionYears * 12
  (List.range (projectionYears + 1)).map (fun year =>
    let months := year * 12
    if 0 < loanDuration ∧ loanDuration = months ∧ loanDuration % 12 = 0 ∧
        loanDuration ≤ maxMonths then
      { label := "X" ++ padStart3 (toString year) ++ "y", months := months }
    else
      { label := padStart3 (toString year) ++ "y", months := months })

/-- Result record of `getEffectiveLoanValues`. -/
structure EffectiveLoanValues where
  effectiveLoanAmount : ℚ
  effectiveLoanTerm : ℕ
  monthlyLoanPayment : ℚ
  refinanceCashOut : ℚ
deriving DecidableEq

/-- One amortization step: `balance -= payment - balance * rate`
(the body of the elapsed-time loop in `getEffectiveLoanValues` and of the
loan branch of `populateMonthlyCosts`). -/
def balanceStep (r P b : ℚ) : ℚ :=
  b - (P - b * r)

/-- Iterating `k` amortization steps starting from balance `b`. -/
def iterBalance (r P b : ℚ) : ℕ → ℚ
  | 0 => b
  | k + 1 => balanceStep r P (iterBalance r P b k)

/-- Embedding of `getEffectiveLoanValues` (calculator.ts lines 39-99). -/
def getEffectiveLoanValues (inputs : CalculatorInputs) : EffectiveLoanValues :=
  if inputs.loanAmount ≤ 0 then
    ⟨0, 0, 0, 0⟩
  else
    let monthlyRate := inputs.loanRate / 100 / 12
    if inputs.includeRefinance.getD false then
      let payment := calculateMonthlyPayment inputs.loanAmount monthlyRate inputs.loanTerm
      let payoffBalance := inputs.payoffBalance.getD 0
      let closingCosts := inputs.closingCosts.getD 0
      ⟨inputs.loanAmount, inputs.loanTerm, payment,
        inputs.loanAmount - payoffBalance - closingCosts⟩
    else
      let remainingTerm := inputs.remainingLoanTerm.getD inputs.loanTerm
      if inputs.loanTerm ≤ remainingTerm then
        ⟨inputs.loanAmount, inputs.loanTerm,
          calculateMonthlyPayment inputs.loanAmount monthlyRate inputs.loanTerm, 0⟩
      else
        let originalPayment :=
          calculateMonthlyPayment inputs.loanAmount monthlyRate inputs.loanTerm
        let monthsElapsed := inputs.loanTerm - remainingTerm
        let balance := iterBalance monthlyRate originalPayment inputs.loanAmount monthsElapsed
        ⟨balance, remainingTerm,
          calculateMonthlyPayment balance monthlyRate remainingTerm, 0⟩

/-- Mutable state of the month loop in `populateMonthlyCosts`. -/
structure SimState where
  currentRentingCost : ℚ
  currentRecurringExpenses : ℚ
  currentBalance : ℚ
  totalPrincipalPaid : ℚ
  totalInterestPaid : ℚ
deriving DecidableEq

/-- The loan branch of iteration `i` of `populateMonthlyCosts`
(calculator.ts lines 140-155): while `i < effectiveLoanTerm`, split the
level payment into interest and principal and update the running totals;
afterwards the state is untouched. -/
def loanBody (r P : ℚ) (n : ℕ) (i : ℕ) (s : SimState) : SimState :=
  if i < n then
    let interestPayment := s.currentBalance * r
    let principalPayment := P - interestPayment
    { s with
      currentBalance := s.currentBalance - principalPayment
      totalPrincipalPaid := s.totalPrincipalPaid + principalPayment
      totalInterestPaid := s.totalInterestPaid + interestPayment }
  else s

/-- The anniversary inflation step at the top of iteration `j ≥ 1`
(calculator.ts lines 133-136). -/
def inflateState (g : ℚ) (j : ℕ) (s : SimState) : SimState :=
  if j % 12 = 0 then
    { s with
      currentRentingCost := s.currentRentingCost * g
      currentRecurringExpenses := s.currentRecurringExpenses * g }
  else s

/-- State at the top of iteration `i` of the month loop, after the
inflation step of that iteration has run (for `i ≥ 1`, the positional
guard `i > 0` of the source is implied). -/
def simStateAt (g r P : ℚ) (n : ℕ) (init : SimState) : ℕ → SimState
  | 0 => init
  | i + 1 => inflateState g (i + 1) (loanBody r P n i (simStateAt g r P n init i))

/-- The five 360-month arrays returned by `populateMonthlyCosts`. -/
structure MonthlyCosts where
  monthlyBuyingCosts : List ℚ
  monthlyRentingCosts : List ℚ
  remainingLoanBalance : List ℚ
  cumulativePrincipalPaid : List ℚ
  cumulativeInterestPaid : List ℚ
deriving DecidableEq

/-- The monthly rate `inputs.loanRate / 100 / 12` of `populateMonthlyCosts`. -/
def pmcRate (inputs : CalculatorInputs) : ℚ :=
  inputs.loanRate / 100 / 12

/-- The annual inflation factor `1 + inputs.inflationRate / 100`. -/
def pmcInflation (inputs : CalculatorInputs) : ℚ :=
  1 + inputs.inflationRate / 100

/-- Initial loop state of `populateMonthlyCosts` (calculator.ts lines
115-130): base renting cost, recurring expenses net of asset income, the
effective loan balance, and zeroed totals. -/
def pmcInit (inputs : CalculatorInputs) : SimState :=
  { currentRentingCost :=
      inputs.monthlyRent + inputs.annualRentCosts / 12 + inputs.otherAnnualCosts / 12
    currentRecurringExpenses :=
      (inputs.annualInsurance + inputs.annualTaxes) / 12 - inputs.annualIncome / 12
    currentBalance := (getEffectiveLoanValues inputs).effectiveLoanAmount
    totalPrincipalPaid := 0
    totalInterestPaid := 0 }

/-- Loop state of `populateMonthlyCosts inputs` at the top of month `i`
(after that month's inflation step). -/
def pmcState (inputs : CalculatorInputs) (i : ℕ) : SimState :=
  simStateAt (pmcInflation inputs) (pmcRate inputs)
    (getEffectiveLoanValues inputs).monthlyLoanPayment
    (getEffectiveLoanValues inputs).effectiveLoanTerm (pmcInit inputs) i

/-- Loop state of `populateMonthlyCosts inputs` right after month `i`'s
amortization update (a no-op once the loan term is over). -/
def pmcPost (inputs : CalculatorInputs) (i : ℕ) : SimState :=
  loanBody (pmcRate inputs) (getEffectiveLoanValues inputs).monthlyLoanPayment
    (getEffectiveLoanValues inputs).effectiveLoanTerm i (pmcState inputs i)

/-- Embedding of `populateMonthlyCosts` (calculator.ts lines 101-171).  Each array entry
`i` is expressed from the loop state at the top of iteration `i`
(`pmcState`), exactly as the source records it: renting cost after the
inflation step, loan figures after that month's amortization update
(`pmcPost`). -/
def populateMonthlyCosts (inputs : CalculatorInputs) : MonthlyCosts :=
  let maxMonths := 360
  let elv := getEffectiveLoanValues inputs
  let taxDeductionRate := inputs.mortgageInterestDeduction / 100
  { monthlyBuyingCosts := (List.range maxMonths).map (fun i =>
      if i < elv.effectiveLoanTerm then
        let interestPayment := (pmcState inputs i).currentBalance * pmcRate inputs
        let principalPayment := elv.monthlyLoanPayment - interestPayment
        principalPayment + interestPayment * (1 - taxDeductionRate) +
          (pmcState inputs i).currentRecurringExpenses
      else (pmcState inputs i).currentRecurringExpenses)
    monthlyRentingCosts :=
      (List.range maxMonths).map (fun i => (pmcState inputs i).currentRentingCost)
    remainingLoanBalance := (List.range maxMonths).map (fun i =>
      if i < elv.effectiveLoanTerm then (pmcPost inputs i).currentBalance else 0)
    cumulativePrincipalPaid :=
      (List.range maxMonths).map (fun i => (pmcPost inputs i).totalPrincipalPaid)
    cumulativeInterestPaid :=
      (List.range maxMonths).map (fun i => (pmcPost inputs i).totalInterestPaid) }

/-- Loop state of `calculateKeepInvestmentTracking`. -/
structure KeepState where
  netPosition : ℚ
  totalReturns : ℚ
deriving DecidableEq

/-- One month of the keep-investment tracker (calculator.ts lines 191-207):
subtract the month's cost from the net position, then compound only a
strictly positive position. -/
def keepStep (mrate cost : ℚ) (s : KeepState) : KeepState :=
  let np := s.netPosition - cost
  if 0 < np then
    ⟨np * (1 + mrate), s.totalReturns + np * mrate⟩
  else
    ⟨np, s.totalReturns⟩

/-- State after `i` months of the tracker. -/
def keepStateAt (costs : ℕ → ℚ) (mrate init : ℚ) : ℕ → KeepState
  | 0 => ⟨init, 0⟩
  | i + 1 => keepStep mrate (costs i) (keepStateAt costs mrate init i)

/-- Result of `calculateKeepInvestmentTracking`. -/
structure KeepTracking where
  monthlyKeepNetPosition : List ℚ
  monthlyKeepInvestmentReturns : List ℚ
deriving DecidableEq

/-- Embedding of `calculateKeepInvestmentTracking` (calculator.ts lines 173-213). -/
def calculateKeepInvestmentTracking (monthlyBuyingCosts : List ℚ)
    (investmentReturnRate : ℚ) (maxMonths : ℕ) (initialCashOut : ℚ) : KeepTracking :=
  let mrate := investmentReturnRate / 100 / 12
  let st := keepStateAt (fun j => monthlyBuyingCosts.getD j 0) mrate initialCashOut
  { monthlyKeepNetPosition := (List.range maxMonths).map (fun i => (st (i + 1)).netPosition)
    monthlyKeepInvestmentReturns :=
      (List.range maxMonths).map (fun i => (st (i + 1)).totalReturns) }

/-- JavaScript array indexing `l[i]`: `undefined` (here `none`) when the
index is out of bounds, in particular when it is negative. -/
def jsGet (l : List ℚ) (i : ℤ) : Option ℚ :=
  if 0 ≤ i then l.get? i.toNat else none

/-- Embedding of `calculateAssetValue` (calculator.ts lines 215-239), over `Option ℝ`:
`none` is the NaN produced when the rate array is read out of bounds
(empty array), and it propagates through every later multiplication just
as NaN does.  The trailing partial year uses a real fractional power. -/
noncomputable def calculateAssetValue (startingPrice : ℚ) (months : ℕ)
    (appreciationRates : List ℚ) : Option ℝ :=
  let years := months / 12
  let remainingMonths := months % 12
  let yearly : Option ℝ := (List.range years).foldl
    (fun acc year => do
      let v ← acc
      let rate ← jsGet appreciationRates
        (min (year : ℤ) ((appreciationRates.length : ℤ) - 1))
      pure (v * (1 + (rate : ℝ) / 100)))
    (some (startingPrice : ℝ))
  if 0 < remainingMonths then do
    let v ← yearly
    let rate ← jsGet appreciationRates
      (min ((years : ℤ)) ((appreciationRates.length : ℤ) - 1))
    pure (v * Real.rpow (1 + (rate : ℝ) / 100) ((remainingMonths : ℝ) / 12))
  else yearly

/-- JavaScript truthiness of an optional number: present and nonzero. -/
def truthy (o : Option ℚ) : Bool :=
  !(o.getD 0 = 0)

/-- Result record of `calculateSaleProceeds`; every field is an
`Option ℝ` so that a NaN sale price (empty appreciation array) or an
out-of-bounds balance read propagates as `none`. -/
structure SaleProceeds where
  salePrice : Option ℝ
  totalSellingCosts : Option ℝ
  loanPayoff : Option ℝ
  capitalGains : Option ℝ
  taxOnGains : Option ℝ
  netProceeds : Option ℝ

/-- Embedding of `calculateSaleProceeds` (calculator.ts lines 241-312). -/
noncomputable def calculateSaleProceeds (inputs : CalculatorInputs) (months : ℕ)
    (remainingLoanBalance : List ℚ) (effectiveLoanAmount : Option ℚ)
    (includeSelling : Bool) : SaleProceeds :=
  let startingPrice :=
    if inputs.scenario = ScenarioType.sell_vs_keep ∧ truthy inputs.currentMarketValue then
      inputs.currentMarketValue.getD 0
    else inputs.purchasePrice
  let salePrice := calculateAssetValue startingPrice months inputs.appreciationRate
  let loanPayoff : Option ℝ :=
    if months = 0 ∧ effectiveLoanAmount.isSome then
      effectiveLoanAmount.map (fun v => (v : ℝ))
    else if months = 0 then do
      let firstMonthBalance ← jsGet remainingLoanBalance 0
      let secondMonthBalance ← jsGet remainingLoanBalance 1
      pure ((firstMonthBalance : ℝ) +
        ((firstMonthBalance : ℝ) - (secondMonthBalance : ℝ)))
    else do
      let b ← jsGet remainingLoanBalance
        (min ((months : ℤ) - 1) ((remainingLoanBalance.length : ℤ) - 1))
      pure (b : ℝ)
  if !includeSelling then
    { salePrice := salePrice
      totalSellingCosts := some 0
      loanPayoff := loanPayoff
      capitalGains := some 0
      taxOnGains := some 0
      netProceeds := do
        let s ← salePrice
        let lp ← loanPayoff
        pure (s - lp) }
  else
    let years := months / 12
    let inflatedStagingCosts : ℝ :=
      (inputs.stagingCosts : ℝ) * (1 + (inputs.inflationRate : ℝ) / 100) ^ years
    let totalSellingCosts : Option ℝ := do
      let s ← salePrice
      pure (s * ((inputs.agentCommission : ℝ) / 100) + inflatedStagingCosts)
    let capitalGains : Option ℝ := do
      let s ← salePrice
      let c ← totalSellingCosts
      pure (s - (inputs.purchasePrice : ℝ) - c)
    let taxFreeLimitIndex : ℤ :=
      max 0 (min ((years : ℤ) - 1) ((inputs.taxFreeLimits.length : ℤ) - 1))
    let taxFreeLimit : ℚ := (jsGet inputs.taxFreeLimits taxFreeLimitIndex).getD 0
    let taxOnGains : Option ℝ := do
      let cg ← capitalGains
      pure (max 0 (cg - (taxFreeLimit : ℝ)) * ((inputs.capitalGainsTax : ℝ) / 100))
    let netProceeds : Option ℝ := do
      let s ← salePrice
      let c ← totalSellingCosts
      let lp ← loanPayoff
      let t ← taxOnGains
      pure (s - c - lp - t)
    { salePrice := salePrice
      totalSellingCosts := totalSellingCosts
      loanPayoff := loanPayoff
      capitalGains := capitalGains
      taxOnGains := taxOnGains
      netProceeds := netProceeds }

/-- The orchestrator's choice of the `includeSelling` argument for the
sale-proceeds table (calculator.ts line 348): `sell_vs_keep` always
includes selling costs; `buy_vs_rent` respects the user toggle. -/
def shouldIncludeSelling (inputs : CalculatorInputs) : Bool :=
  if inputs.scenario = ScenarioType.sell_vs_keep then true else inputs.includeSelling

/-- Indexing a mapped range with `getD`, in bounds. -/
theorem getD_range_map {α : Type} (f : ℕ → α) (d : α) (n i : ℕ) (hi : i < n) :
    ((List.range n).map f).getD i d = f i := by
  rw [List.getD_eq_getElem?_getD, List.getElem?_map, List.getElem?_range hi]
  rfl


/-- The inflation step does not touch the loan balance. -/
theorem inflateState_balance (g : ℚ) (j : ℕ) (s : SimState) :
    (inflateState g j s).currentBalance = s.currentBalance := by
  rw [inflateState]; split <;> rfl

/-- The inflation step does not touch the principal total. -/
theorem inflateState_totalPrincipal (g : ℚ) (j : ℕ) (s : SimState) :
    (inflateState g j s).totalPrincipalPaid = s.totalPrincipalPaid := by
  rw [inflateState]; split <;> rfl

/-- The inflation step does not touch the interest total. -/
theorem inflateState_totalInterest (g : ℚ) (j : ℕ) (s : SimState) :
    (inflateState g j s).totalInterestPaid = s.totalInterestPaid := by
  rw [inflateState]; split <;> rfl

/-- The loan branch does not touch the renting cost. -/
theorem loanBody_renting (r P : ℚ) (n i : ℕ) (s : SimState) :
    (loanBody r P n i s).currentRentingCost = s.currentRentingCost := by
  rw [loanBody]; split <;> rfl

/-- The loan branch does not touch the recurring expenses. -/
theorem loanBody_recurring (r P : ℚ) (n i : ℕ) (s : SimState) :
    (loanBody r P n i s).currentRecurringExpenses = s.currentRecurringExpenses := by
  rw [loanBody]; split <;> rfl

/-- The simulator balance is `iterBalance` stopped at the loan term:
inflation never touches the balance, and months past the term are inert. -/
theorem simStateAt_balance (g r P : ℚ) (n : ℕ) (init : SimState) (i : ℕ) :
    (simStateAt g r P n init i).currentBalance
      = iterBalance r P init.currentBalance (min i n) := by
  induction i with
  | zero => simp [simStateAt, iterBalance]
  | succ i ih =>
    rw [simStateAt, inflateState_balance, loanBody]
    by_cases h : i < n
    · have h1 : min i n = i := min_eq_left h.le
      have h2 : min (i + 1) n = i + 1 := min_eq_left h
      rw [if_pos h, h2, iterBalance, balanceStep]
      simp only [ih, h1]
    · have h1 : min i n = n := min_eq_right (not_lt.mp h)
      have h2 : min (i + 1) n = n := min_eq_right ((not_lt.mp h).trans (Nat.le_succ i))
      rw [if_neg h, h2, ih, h1]

/-- Principal paid plus remaining balance is conserved by the simulator. -/
theorem simStateAt_principal_invariant (g r P : ℚ) (n : ℕ) (init : SimState) (i : ℕ) :
    (simStateAt g r P n init i).totalPrincipalPaid
        + (simStateAt g r P n init i).currentBalance
      = init.totalPrincipalPaid + init.currentBalance := by
  induction i with
  | zero => simp [simStateAt]
  | succ i ih =>
    rw [simStateAt, inflateState_balance, inflateState_totalPrincipal, loanBody]
    split
    · simp only
      linarith
    · exact ih

/-- Past the loan term, the loan-related components of the state freeze. -/
theorem simStateAt_frozen (g r P : ℚ) (n : ℕ) (init : SimState) (i : ℕ) (h : n ≤ i) :
    (simStateAt g r P n init i).currentBalance = (simStateAt g r P n init n).currentBalance ∧
    (simStateAt g r P n init i).totalPrincipalPaid
      = (simStateAt g r P n init n).totalPrincipalPaid ∧
    (simStateAt g r P n init i).totalInterestPaid
      = (simStateAt g r P n init n).totalInterestPaid := by
  induction i with
  | zero =>
    have hz : n = 0 := Nat.le_zero.mp h
    simp [hz]
  | succ i ih =>
    rcases Nat.lt_or_ge n (i + 1) with hlt | hge
    · have hni : n ≤ i := Nat.lt_succ_iff.mp hlt
      have ihh := ih hni
      rw [simStateAt, inflateState_balance, inflateState_totalPrincipal,
        inflateState_totalInterest, loanBody, if_neg (not_lt.mpr hni)]
      exact ihh
    · have hz : n = i + 1 := le_antisymm h hge
      simp [hz]

/-- The renting cost in the simulator state is the base cost stepped up
once per completed year. -/
theorem simStateAt_renting (g r P : ℚ) (n : ℕ) (init : SimState) (i : ℕ) :
    (simStateAt g r P n init i).currentRentingCost
      = init.currentRentingCost * g ^ (i / 12) := by
  induction i with
  | zero => simp [simStateAt]
  | succ i ih =>
    rw [simStateAt, inflateState]
    split
    · rename_i hmod
      have hdvd : 12 ∣ i + 1 := Nat.dvd_of_mod_eq_zero hmod
      have hq : (i + 1) / 12 = i / 12 + 1 := by
        rw [Nat.succ_div, if_pos hdvd]
      simp only [loanBody_renting, ih, hq]
      ring
    · rename_i hmod
      have hdvd : ¬ 12 ∣ i + 1 := by
        intro hc
        exact hmod (Nat.eq_zero_of_dvd_of_lt hc |> fun _ => by omega)
      have hq : (i + 1) / 12 = i / 12 := by
        rw [Nat.succ_div, if_neg hdvd]
        omega
      simp only [loanBody_renting, ih, hq]

/-- Closed form for the amortization recursion at a nonzero rate. -/
theorem iterBalance_closed (r P L : ℚ) (hr : r ≠ 0) (k : ℕ) :
    iterBalance r P L k = (L - P / r) * (1 + r) ^ k + P / r := by
  induction k with
  | zero => simp [iterBalance]
  | succ k ih =>
    rw [iterBalance, ih, balanceStep]
    field_simp
    ring

/-- Closed form for the amortization recursion at rate zero. -/
theorem iterBalance_zero_rate (P L : ℚ) (k : ℕ) :
    iterBalance 0 P L k = L - k * P := by
  induction k with
  | zero => simp [iterBalance]
  | succ k ih =>
    rw [iterBalance, ih, balanceStep]
    push_cast
    ring

/-- The level payment of `calculateMonthlyPayment` amortizes the principal
to exactly zero after `months` steps, for any rate above `-100%` monthly. -/
theorem iterBalance_payment_exact (L r : ℚ) (n : ℕ) (hn : n ≠ 0) (hr1 : -1 < r) :
    iterBalance r (calculateMonthlyPayment L r n) L n = 0 := by
  by_cases hr : r = 0
  · subst hr
    rw [calculateMonthlyPayment, if_pos rfl, iterBalance_zero_rate]
    have hnq : (n : ℚ) ≠ 0 := Nat.cast_ne_zero.mpr hn
    field_simp
  · have hpos : (0 : ℚ) < 1 + r := by linarith
    have hf1 : (1 + r) ^ n ≠ 1 := by
      rcases lt_or_gt_of_ne hr with hneg | hposr
      · have h1 : 1 + r < 1 := by linarith
        exact ne_of_lt (pow_lt_one₀ hpos.le h1 hn)
      · have h1 : 1 < 1 + r := by linarith
        exact ne_of_gt (one_lt_pow₀ h1 hn)
    have hfne : (1 + r) ^ n - 1 ≠ 0 := sub_ne_zero.mpr hf1
    rw [calculateMonthlyPayment, if_neg hr, iterBalance_closed r _ L hr]
    field_simp
    ring

/-- Entry `i` of the balance array, for `i` inside the 360-month horizon. -/
theorem populateMonthlyCosts_balance_getD (inputs : CalculatorInputs) (i : ℕ)
    (hi : i < 360) :
    (populateMonthlyCosts inputs).remainingLoanBalance.getD i 0 =
      if i < (getEffectiveLoanValues inputs).effectiveLoanTerm
      then (pmcPost inputs i).currentBalance else 0 := by
  simp only [populateMonthlyCosts]
  exact getD_range_map _ _ 360 i hi

/-- Entry `i` of the cumulative-principal array. -/
theorem populateMonthlyCosts_principal_getD (inputs : CalculatorInputs) (i : ℕ)
    (hi : i < 360) :
    (populateMonthlyCosts inputs).cumulativePrincipalPaid.getD i 0 =
      (pmcPost inputs i).totalPrincipalPaid := by
  simp only [populateMonthlyCosts]
  exact getD_range_map _ _ 360 i hi

/-- Entry `i` of the cumulative-interest array. -/
theorem populateMonthlyCosts_interest_getD (inputs : CalculatorInputs) (i : ℕ)
    (hi : i < 360) :
    (populateMonthlyCosts inputs).cumulativeInterestPaid.getD i 0 =
      (pmcPost inputs i).totalInterestPaid := by
  simp only [populateMonthlyCosts]
  exact getD_range_map _ _ 360 i hi

/-- Entry `i` of the renting-cost array. -/
theorem populateMonthlyCosts_renting_getD (inputs : CalculatorInputs) (i : ℕ)
    (hi : i < 360) :
    (populateMonthlyCosts inputs).monthlyRentingCosts.getD i 0 =
      (pmcState inputs i).currentRentingCost := by
  simp only [populateMonthlyCosts]
  exact getD_range_map _ _ 360 i hi

/-- Entry `i` of the buying-cost array. -/
theorem populateMonthlyCosts_buying_getD (inputs : CalculatorInputs) (i : ℕ)
    (hi : i < 360) :
    (populateMonthlyCosts inputs).monthlyBuyingCosts.getD i 0 =
      (if i < (getEffectiveLoanValues inputs).effectiveLoanTerm then
        ((getEffectiveLoanValues inputs).monthlyLoanPayment
            - (pmcState inputs i).currentBalance * pmcRate inputs)
          + ((pmcState inputs i).currentBalance * pmcRate inputs)
              * (1 - inputs.mortgageInterestDeduction / 100)
          + (pmcState inputs i).currentRecurringExpenses
      else (pmcState inputs i).currentRecurringExpenses) := by
  simp only [populateMonthlyCosts]
  exact getD_range_map _ _ 360 i hi

/-- Evaluation of `getEffectiveLoanValues` on a fresh loan (positive amount, no
refinance, remaining term not shorter than the term) passes the original
loan through with the standard level payment. -/
theorem getEffectiveLoanValues_plain (inputs : CalculatorInputs)
    (hL : 0 < inputs.loanAmount)
    (hrefi : inputs.includeRefinance.getD false = false)
    (hterm : inputs.loanTerm ≤ inputs.remainingLoanTerm.getD inputs.loanTerm) :
    getEffectiveLoanValues inputs =
      ⟨inputs.loanAmount, inputs.loanTerm,
        calculateMonthlyPayment inputs.loanAmount (inputs.loanRate / 100 / 12)
          inputs.loanTerm, 0⟩ := by
  rw [getEffectiveLoanValues, if_neg (not_le.mpr hL)]
  simp only [hrefi, Bool.false_eq_true, if_false, if_pos hterm]

/-- The spec's end-to-end example input: purchase 500,000, loan 400,000
at 6.5% annual over 360 months, no deduction, no refinance. -/
def exampleInputs : CalculatorInputs :=
  { scenario := ScenarioType.buy_vs_rent
    inflationRate := 0
    investmentReturnRate := 0
    projectionYears := 30
    purchasePrice := 500000
    currentMarketValue := none
    annualInsurance := 0
    annualTaxes := 0
    annualIncome := 0
    appreciationRate := [3]
    loanAmount := 400000
    loanRate := 13 / 2
    loanTerm := 360
    remainingLoanTerm := none
    includeRefinance := none
    payoffBalance := none
    closingCosts := none
    mortgageInterestDeduction := 0
    extraMonthlyPayment := none
    extraUpfrontPayment := none
    recalculatePayment := none
    rentDeposit := 0
    monthlyRent := 0
    annualRentCosts := 0
    otherAnnualCosts := 0
    includeSelling := true
    includeRentingSell := none
    agentCommission := 0
    stagingCosts := 0
    taxFreeLimits := [0]
    capitalGainsTax := 0 }

/-- C1: for every input with a positive loan amount, no refinance and no
shortened remaining term, a nonzero term within the 360-month horizon and
a rate above `-100%` monthly, the level payment produced by
`getEffectiveLoanValues` fully amortizes the loan in `populateMonthlyCosts`:
the remaining balance recorded at month `effectiveLoanTerm - 1` is exactly
zero and the cumulative principal paid there equals the effective loan
amount (exact rational arithmetic subsumes the claim's floating-point
tolerance). -/
theorem amortization_closure (inputs : CalculatorInputs)
    (hL : 0 < inputs.loanAmount)
    (hrefi : inputs.includeRefinance.getD false = false)
    (hterm : inputs.loanTerm ≤ inputs.remainingLoanTerm.getD inputs.loanTerm)
    (hn1 : 1 ≤ inputs.loanTerm) (hn360 : inputs.loanTerm ≤ 360)
    (hrate : -1200 < inputs.loanRate) :
    (populateMonthlyCosts inputs).remainingLoanBalance.getD (inputs.loanTerm - 1) 0 = 0 ∧
    (populateMonthlyCosts inputs).cumulativePrincipalPaid.getD (inputs.loanTerm - 1) 0
      = inputs.loanAmount := by
  have helv := getEffectiveLoanValues_plain inputs hL hrefi hterm
  have hterm_eq : (getEffectiveLoanValues inputs).effectiveLoanTerm = inputs.loanTerm := by
    rw [helv]
  have hP : (getEffectiveLoanValues inputs).monthlyLoanPayment
      = calculateMonthlyPayment inputs.loanAmount (pmcRate inputs) inputs.loanTerm := by
    rw [helv, pmcRate]
  have hLa : (getEffectiveLoanValues inputs).effectiveLoanAmount = inputs.loanAmount := by
    rw [helv]
  have hr1 : (-1 : ℚ) < pmcRate inputs := by
    have h12 : pmcRate inputs = inputs.loanRate / 1200 := by
      rw [pmcRate, div_div]
      norm_num
    rw [h12, lt_div_iff₀ (by norm_num : (0 : ℚ) < 1200)]
    linarith
  have hidx : inputs.loanTerm - 1 < 360 := by omega
  have hlt : inputs.loanTerm - 1 < inputs.loanTerm := by omega
  have hsucc : inputs.loanTerm - 1 + 1 = inputs.loanTerm := by omega
  have hb : (pmcState inputs (inputs.loanTerm - 1)).currentBalance
      = iterBalance (pmcRate inputs) ((getEffectiveLoanValues inputs).monthlyLoanPayment)
          inputs.loanAmount (inputs.loanTerm - 1) := by
    rw [pmcState, simStateAt_balance, hterm_eq, min_eq_left hlt.le]
    simp only [pmcInit, hLa]
  have hzero : iterBalance (pmcRate inputs)
      ((getEffectiveLoanValues inputs).monthlyLoanPayment) inputs.loanAmount
      inputs.loanTerm = 0 := by
    rw [hP]
    exact iterBalance_payment_exact inputs.loanAmount (pmcRate inputs) inputs.loanTerm
      (by omega) hr1
  have hstep : iterBalance (pmcRate inputs)
      ((getEffectiveLoanValues inputs).monthlyLoanPayment) inputs.loanAmount
      inputs.loanTerm
      = balanceStep (pmcRate inputs) ((getEffectiveLoanValues inputs).monthlyLoanPayment)
          (iterBalance (pmcRate inputs) ((getEffectiveLoanValues inputs).monthlyLoanPayment)
            inputs.loanAmount (inputs.loanTerm - 1)) := by
    conv_lhs => rw [← hsucc]
    rw [iterBalance]
  have hpost : (pmcPost inputs (inputs.loanTerm - 1)).currentBalance = 0 := by
    rw [pmcPost, loanBody, hterm_eq, if_pos hlt]
    simp only
    rw [← balanceStep, hb, ← hstep, hzero]
  have htp0 : (pmcState inputs (inputs.loanTerm - 1)).totalPrincipalPaid
      = inputs.loanAmount - (pmcState inputs (inputs.loanTerm - 1)).currentBalance := by
    have hinv := simStateAt_principal_invariant (pmcInflation inputs) (pmcRate inputs)
      ((getEffectiveLoanValues inputs).monthlyLoanPayment)
      ((getEffectiveLoanValues inputs).effectiveLoanTerm) (pmcInit inputs)
      (inputs.loanTerm - 1)
    have hinit : (pmcInit inputs).totalPrincipalPaid + (pmcInit inputs).currentBalance
        = inputs.loanAmount := by
      simp only [pmcInit, hLa]
      ring
    rw [pmcState]
    linarith [hinv, hinit]
  have hposttp : (pmcPost inputs (inputs.loanTerm - 1)).totalPrincipalPaid
      = inputs.loanAmount := by
    have hbal0 : balanceStep (pmcRate inputs)
        ((getEffectiveLoanValues inputs).monthlyLoanPayment)
        ((pmcState inputs (inputs.loanTerm - 1)).currentBalance) = 0 := by
      rw [hb, ← hstep, hzero]
    rw [pmcPost, loanBody, hterm_eq, if_pos hlt]
    simp only
    rw [htp0]
    rw [balanceStep] at hbal0
    linarith
  constructor
  · rw [populateMonthlyCosts_balance_getD inputs _ hidx, hterm_eq, if_pos hlt]
    exact hpost
  · rw [populateMonthlyCosts_principal_getD inputs _ hidx]
    exact hposttp

/-- Witness for C1 at the spec's example loan. -/
theorem amortization_closure_witness :
    (populateMonthlyCosts exampleInputs).remainingLoanBalance.getD
        (exampleInputs.loanTerm - 1) 0 = 0 ∧
    (populateMonthlyCosts exampleInputs).cumulativePrincipalPaid.getD
        (exampleInputs.loanTerm - 1) 0 = exampleInputs.loanAmount :=
  amortization_closure exampleInputs (by norm_num [exampleInputs])
    (by norm_num [exampleInputs]) (by norm_num [exampleInputs])
    (by norm_num [exampleInputs]) (by norm_num [exampleInputs])
    (by norm_num [exampleInputs])

/-- C2 counterexample: with an 18-month loan and a 2-year horizon,
`getPeriods` returns only the three year-boundary rows (months 0, 12, 24);
no loan-term marker row for payoff month 18 is injected, contradicting the
claimed injection of a marker row when the payoff month is not a year
boundary. -/
theorem getPeriods_no_injected_row :
    (getPeriods 18 2).length = 3 ∧ ∀ p ∈ getPeriods 18 2, p.months ≠ 18 := by
  decide

/-- C2 (amended): `getPeriods` returns exactly one row per year boundary
`0..projectionYears` (never an extra injected row); rows are strictly
increasing in months, and the row whose boundary equals a positive loan
duration carries the loan-term label `X…y` in place of the generic label
— both rows are never emitted. -/
theorem getPeriods_rows (d y : ℕ) :
    (getPeriods d y).length = y + 1 ∧
    List.Pairwise (fun a b => a.months < b.months) (getPeriods d y) ∧
    ∀ i, i < y + 1 →
      (getPeriods d y).getD i ⟨"", 0⟩ =
        (if 0 < d ∧ d = i * 12 then
          ⟨"X" ++ padStart3 (toString i) ++ "y", i * 12⟩
        else ⟨padStart3 (toString i) ++ "y", i * 12⟩) := by
  refine ⟨by simp [getPeriods], ?_, ?_⟩
  · rw [getPeriods]
    refine List.Pairwise.map _ ?_ (List.pairwise_lt_range (y + 1))
    intro a b hab
    dsimp only
    split <;> split <;> dsimp only <;> omega
  · intro i hi
    simp only [getPeriods]
    rw [getD_range_map _ _ (y + 1) i hi]
    by_cases hc : 0 < d ∧ d = i * 12
    · have hfull : 0 < d ∧ d = i * 12 ∧ d % 12 = 0 ∧ d ≤ y * 12 := by
        obtain ⟨h1, h2⟩ := hc
        exact ⟨h1, h2, by omega, by omega⟩
      rw [if_pos hfull, if_pos hc]
    · have hnot : ¬(0 < d ∧ d = i * 12 ∧ d % 12 = 0 ∧ d ≤ y * 12) := by
        intro h
        exact hc ⟨h.1, h.2.1⟩
      rw [if_neg hnot, if_neg hc]

/-- Witness for C2 (amended) at a 24-month loan with a 2-year horizon:
the year-2 boundary row is the loan-term marker row. -/
theorem getPeriods_rows_witness :
    (getPeriods 24 2).getD 2 ⟨"", 0⟩ =
      ⟨"X" ++ padStart3 (toString 2) ++ "y", 2 * 12⟩ := by
  have h := (getPeriods_rows 24 2).2.2 2 (by norm_num)
  rw [h, if_pos (by norm_num : 0 < 24 ∧ 24 = 2 * 12)]

/-- Past the loan term the loan branch is a no-op. -/
theorem loanBody_of_ge (r P : ℚ) (n i : ℕ) (h : n ≤ i) (s : SimState) :
    loanBody r P n i s = s := by
  rw [loanBody, if_neg (not_lt.mpr h)]

/-- Past the loan term the post-update state is the top-of-month state. -/
theorem pmcPost_of_ge (inputs : CalculatorInputs) (i : ℕ)
    (h : (getEffectiveLoanValues inputs).effectiveLoanTerm ≤ i) :
    pmcPost inputs i = pmcState inputs i := by
  rw [pmcPost, loanBody_of_ge _ _ _ _ h]

/-- The principal total at the top of month `k+1` equals the total right
after month `k`'s update (the inflation step between them keeps it). -/
theorem pmcState_succ_totalPrincipal (inputs : CalculatorInputs) (k : ℕ) :
    (pmcState inputs (k + 1)).totalPrincipalPaid
      = (pmcPost inputs k).totalPrincipalPaid := by
  rw [pmcState, simStateAt, inflateState_totalPrincipal]
  rfl

/-- The interest total at the top of month `k+1` equals the total right
after month `k`'s update. -/
theorem pmcState_succ_totalInterest (inputs : CalculatorInputs) (k : ℕ) :
    (pmcState inputs (k + 1)).totalInterestPaid
      = (pmcPost inputs k).totalInterestPaid := by
  rw [pmcState, simStateAt, inflateState_totalInterest]
  rfl

/-- The balance at the top of month `k+1` equals the balance right after
month `k`'s update. -/
theorem pmcState_succ_balance (inputs : CalculatorInputs) (k : ℕ) :
    (pmcState inputs (k + 1)).currentBalance = (pmcPost inputs k).currentBalance := by
  rw [pmcState, simStateAt, inflateState_balance]
  rfl

/-- From any month at or past the loan term on, the cumulative totals
equal their value right after the final loan month (month `n - 1`; for a
zero-term loan this is the untouched initial state). -/
theorem pmcPost_totals_frozen (inputs : CalculatorInputs) (i : ℕ)
    (hni : (getEffectiveLoanValues inputs).effectiveLoanTerm ≤ i) :
    (pmcPost inputs i).totalPrincipalPaid
      = (pmcPost inputs
          ((getEffectiveLoanValues inputs).effectiveLoanTerm - 1)).totalPrincipalPaid ∧
    (pmcPost inputs i).totalInterestPaid
      = (pmcPost inputs
          ((getEffectiveLoanValues inputs).effectiveLoanTerm - 1)).totalInterestPaid := by
  have hfrozen := simStateAt_frozen (pmcInflation inputs) (pmcRate inputs)
    ((getEffectiveLoanValues inputs).monthlyLoanPayment)
    ((getEffectiveLoanValues inputs).effectiveLoanTerm) (pmcInit inputs) i hni
  rcases Nat.eq_zero_or_pos (getEffectiveLoanValues inputs).effectiveLoanTerm with h0 | hpos
  · have hidx0 : (getEffectiveLoanValues inputs).effectiveLoanTerm - 1
        = (getEffectiveLoanValues inputs).effectiveLoanTerm := by omega
    rw [pmcPost_of_ge inputs i hni, pmcPost_of_ge inputs _ (by omega), hidx0]
    simp only [pmcState]
    exact ⟨hfrozen.2.1, hfrozen.2.2⟩
  · have hsucc : (getEffectiveLoanValues inputs).effectiveLoanTerm - 1 + 1
        = (getEffectiveLoanValues inputs).effectiveLoanTerm := by omega
    have hp := pmcState_succ_totalPrincipal inputs
      ((getEffectiveLoanValues inputs).effectiveLoanTerm - 1)
    have hq := pmcState_succ_totalInterest inputs
      ((getEffectiveLoanValues inputs).effectiveLoanTerm - 1)
    rw [hsucc] at hp hq
    simp only [pmcState] at hp hq
    rw [pmcPost_of_ge inputs i hni]
    simp only [pmcState]
    exact ⟨hfrozen.2.1.trans hp, hfrozen.2.2.trans hq⟩

/-- C10: `populateMonthlyCosts` always returns arrays of length exactly
360; for every month `i` with `effectiveLoanTerm ≤ i < 360` the recorded
balance is exactly 0 and the cumulative principal/interest entries equal
their value at the final loan month (index `effectiveLoanTerm - 1`), which
is 0 when there never was a loan. -/
theorem post_loan_quiescence (inputs : CalculatorInputs) (i : ℕ)
    (hni : (getEffectiveLoanValues inputs).effectiveLoanTerm ≤ i) (hi : i < 360) :
    (populateMonthlyCosts inputs).monthlyBuyingCosts.length = 360 ∧
    (populateMonthlyCosts inputs).monthlyRentingCosts.length = 360 ∧
    (populateMonthlyCosts inputs).remainingLoanBalance.length = 360 ∧
    (populateMonthlyCosts inputs).cumulativePrincipalPaid.length = 360 ∧
    (populateMonthlyCosts inputs).cumulativeInterestPaid.length = 360 ∧
    (populateMonthlyCosts inputs).remainingLoanBalance.getD i 0 = 0 ∧
    (populateMonthlyCosts inputs).cumulativePrincipalPaid.getD i 0 =
      (populateMonthlyCosts inputs).cumulativePrincipalPaid.getD
        ((getEffectiveLoanValues inputs).effectiveLoanTerm - 1) 0 ∧
    (populateMonthlyCosts inputs).cumulativeInterestPaid.getD i 0 =
      (populateMonthlyCosts inputs).cumulativeInterestPaid.getD
        ((getEffectiveLoanValues inputs).effectiveLoanTerm - 1) 0 ∧
    ((getEffectiveLoanValues inputs).effectiveLoanTerm = 0 →
      (populateMonthlyCosts inputs).cumulativePrincipalPaid.getD i 0 = 0 ∧
      (populateMonthlyCosts inputs).cumulativeInterestPaid.getD i 0 = 0) := by
  have hidx : (getEffectiveLoanValues inputs).effectiveLoanTerm - 1 < 360 := by omega
  have hfro := pmcPost_totals_frozen inputs i hni
  refine ⟨by simp [populateMonthlyCosts], by simp [populateMonthlyCosts],
    by simp [populateMonthlyCosts], by simp [populateMonthlyCosts],
    by simp [populateMonthlyCosts], ?_, ?_, ?_, ?_⟩
  · rw [populateMonthlyCosts_balance_getD inputs i hi, if_neg (not_lt.mpr hni)]
  · rw [populateMonthlyCosts_principal_getD inputs i hi,
      populateMonthlyCosts_principal_getD inputs _ hidx]
    exact hfro.1
  · rw [populateMonthlyCosts_interest_getD inputs i hi,
      populateMonthlyCosts_interest_getD inputs _ hidx]
    exact hfro.2
  · intro h0
    have hfrozen := simStateAt_frozen (pmcInflation inputs) (pmcRate inputs)
      ((getEffectiveLoanValues inputs).monthlyLoanPayment)
      ((getEffectiveLoanValues inputs).effectiveLoanTerm) (pmcInit inputs) i hni
    rw [h0] at hfrozen
    constructor
    · rw [populateMonthlyCosts_principal_getD inputs i hi, pmcPost_of_ge inputs i hni,
        pmcState, h0, hfrozen.2.1]
      rfl
    · rw [populateMonthlyCosts_interest_getD inputs i hi, pmcPost_of_ge inputs i hni,
        pmcState, h0, hfrozen.2.2]
      rfl

/-- Witness for C10 at the example loan, one month past the 360-month term
boundary is impossible there, so use a shorter loan: the example input with
a 12-month term, checked at month 100. -/
theorem post_loan_quiescence_witness :
    (populateMonthlyCosts { exampleInputs with loanTerm := 12 }).remainingLoanBalance.getD
        100 0 = 0 ∧
    (populateMonthlyCosts { exampleInputs with loanTerm := 12 }).cumulativePrincipalPaid.getD
        100 0 =
      (populateMonthlyCosts { exampleInputs with loanTerm := 12 }).cumulativePrincipalPaid.getD
        ((getEffectiveLoanValues { exampleInputs with loanTerm := 12 }).effectiveLoanTerm - 1)
        0 := by
  have h := post_loan_quiescence { exampleInputs with loanTerm := 12 } 100
    (by norm_num [getEffectiveLoanValues_plain, getEffectiveLoanValues, exampleInputs,
      calculateMonthlyPayment]) (by norm_num)
  exact ⟨h.2.2.2.2.2.1, h.2.2.2.2.2.2.1⟩

/-- Effective loan values of the example input, in closed form. -/
theorem exampleInputs_elv :
    getEffectiveLoanValues exampleInputs
      = ⟨400000, 360, calculateMonthlyPayment 400000 (13 / 2 / 100 / 12) 360, 0⟩ := by
  rw [getEffectiveLoanValues_plain exampleInputs (by norm_num [exampleInputs]) rfl
    (by norm_num [exampleInputs])]
  norm_num [exampleInputs]

/-- C9: changing only `mortgageInterestDeduction` leaves the balance and
both cumulative arrays of `populateMonthlyCosts` bit-identical (nominal
interest is tracked pre-deduction), and during the loan term the buying
cost charged for month `i` is
`principal + interest * (1 - deductionRate) + recurringExpenses`. -/
theorem deduction_noninterference (inputs : CalculatorInputs) (d : ℚ) (i : ℕ)
    (hin : i < (getEffectiveLoanValues inputs).effectiveLoanTerm) (hi : i < 360) :
    (populateMonthlyCosts
        { inputs with mortgageInterestDeduction := d }).remainingLoanBalance
      = (populateMonthlyCosts inputs).remainingLoanBalance ∧
    (populateMonthlyCosts
        { inputs with mortgageInterestDeduction := d }).cumulativePrincipalPaid
      = (populateMonthlyCosts inputs).cumulativePrincipalPaid ∧
    (populateMonthlyCosts
        { inputs with mortgageInterestDeduction := d }).cumulativeInterestPaid
      = (populateMonthlyCosts inputs).cumulativeInterestPaid ∧
    (populateMonthlyCosts inputs).monthlyBuyingCosts.getD i 0
      = ((getEffectiveLoanValues inputs).monthlyLoanPayment
          - (pmcState inputs i).currentBalance * pmcRate inputs)
        + ((pmcState inputs i).currentBalance * pmcRate inputs)
            * (1 - inputs.mortgageInterestDeduction / 100)
        + (pmcState inputs i).currentRecurringExpenses := by
  refine ⟨rfl, rfl, rfl, ?_⟩
  rw [populateMonthlyCosts_buying_getD inputs i hi, if_pos hin]

/-- Witness for C9 at the example loan, deduction rate 30, month 0. -/
theorem deduction_noninterference_witness :
    (populateMonthlyCosts
        { exampleInputs with mortgageInterestDeduction := 30 }).remainingLoanBalance
      = (populateMonthlyCosts exampleInputs).remainingLoanBalance ∧
    (populateMonthlyCosts
        { exampleInputs with mortgageInterestDeduction := 30 }).cumulativePrincipalPaid
      = (populateMonthlyCosts exampleInputs).cumulativePrincipalPaid ∧
    (populateMonthlyCosts
        { exampleInputs with mortgageInterestDeduction := 30 }).cumulativeInterestPaid
      = (populateMonthlyCosts exampleInputs).cumulativeInterestPaid ∧
    (populateMonthlyCosts exampleInputs).monthlyBuyingCosts.getD 0 0
      = ((getEffectiveLoanValues exampleInputs).monthlyLoanPayment
          - (pmcState exampleInputs 0).currentBalance * pmcRate exampleInputs)
        + ((pmcState exampleInputs 0).currentBalance * pmcRate exampleInputs)
            * (1 - exampleInputs.mortgageInterestDeduction / 100)
        + (pmcState exampleInputs 0).currentRecurringExpenses :=
  deduction_noninterference exampleInputs 30 0 (by rw [exampleInputs_elv]; norm_num)
    (by norm_num)

/-- C8 counterexample: with a zero base renting cost (all rent fields 0,
allowed by the data model, which only requires money fields to be
non-negative) and inflation 5% > 0, the year-1 renting cost equals the
year-0 cost (both 0), so the claimed strict increase fails. -/
theorem inflation_monotonicity_fails :
    (0 : ℚ) < ({ exampleInputs with inflationRate := 5 } : CalculatorInputs).inflationRate ∧
    ¬ ((populateMonthlyCosts
          { exampleInputs with inflationRate := 5 }).monthlyRentingCosts.getD (12 * 1) 0
        > (populateMonthlyCosts
          { exampleInputs with inflationRate := 5 }).monthlyRentingCosts.getD (12 * 0) 0) := by
  constructor
  · norm_num
  · rw [populateMonthlyCosts_renting_getD _ _ (by norm_num),
      populateMonthlyCosts_renting_getD _ _ (by norm_num)]
    simp only [pmcState, simStateAt_renting]
    norm_num [pmcInit, exampleInputs]

/-- C8 (amended): for every input with `inflationRate > 0` and a positive
base renting cost, the renting-cost series is strictly increasing across
year boundaries inside the 360-month horizon. -/
theorem inflation_monotonicity (inputs : CalculatorInputs) (k : ℕ)
    (hinf : 0 < inputs.inflationRate)
    (hbase : 0 < inputs.monthlyRent + inputs.annualRentCosts / 12
        + inputs.otherAnnualCosts / 12)
    (hk : 1 ≤ k) (hk360 : 12 * k < 360) :
    (populateMonthlyCosts inputs).monthlyRentingCosts.getD (12 * k) 0
      > (populateMonthlyCosts inputs).monthlyRentingCosts.getD (12 * (k - 1)) 0 := by
  rw [populateMonthlyCosts_renting_getD _ _ hk360,
    populateMonthlyCosts_renting_getD _ _ (by omega)]
  simp only [pmcState, simStateAt_renting]
  have hdiv1 : 12 * k / 12 = k := by omega
  have hdiv2 : 12 * (k - 1) / 12 = k - 1 := by omega
  rw [hdiv1, hdiv2]
  have hg : 1 < pmcInflation inputs := by
    rw [pmcInflation]
    linarith
  have hpow : pmcInflation inputs ^ (k - 1) < pmcInflation inputs ^ k := by
    apply pow_lt_pow_right₀ hg
    omega
  simp only [pmcInit]
  exact mul_lt_mul_of_pos_left hpow hbase

/-- Witness for C8 (amended): monthly rent 1000, inflation 2%, year 1. -/
theorem inflation_monotonicity_witness :
    (populateMonthlyCosts
        { exampleInputs with inflationRate := 2, monthlyRent := 1000 }).monthlyRentingCosts.getD
        (12 * 1) 0
      > (populateMonthlyCosts
        { exampleInputs with inflationRate := 2, monthlyRent := 1000 }).monthlyRentingCosts.getD
        (12 * (1 - 1)) 0 :=
  inflation_monotonicity { exampleInputs with inflationRate := 2, monthlyRent := 1000 } 1
    (by norm_num) (by norm_num [exampleInputs]) (by norm_num) (by norm_num)

/-- Entry `i` of the tracker's net-position array. -/
theorem keepTracking_netPosition_getD (costs : List ℚ) (rate : ℚ) (m : ℕ) (init : ℚ)
    (i : ℕ) (hi : i < m) :
    (calculateKeepInvestmentTracking costs rate m init).monthlyKeepNetPosition.getD i 0
      = (keepStateAt (fun j => costs.getD j 0) (rate / 100 / 12) init (i + 1)).netPosition := by
  simp only [calculateKeepInvestmentTracking]
  exact getD_range_map _ _ m i hi

/-- Entry `i` of the tracker's cumulative-returns array. -/
theorem keepTracking_returns_getD (costs : List ℚ) (rate : ℚ) (m : ℕ) (init : ℚ)
    (i : ℕ) (hi : i < m) :
    (calculateKeepInvestmentTracking costs rate m init).monthlyKeepInvestmentReturns.getD i 0
      = (keepStateAt (fun j => costs.getD j 0) (rate / 100 / 12) init (i + 1)).totalReturns := by
  simp only [calculateKeepInvestmentTracking]
  exact getD_range_map _ _ m i hi

/-- If a month ends with a non-positive net position, that month's step
did not increase the returns total (either no return was earned, or — at
a monthly rate at or below `-100%` — a negative return was added). -/
theorem keepStep_no_return (mrate cost : ℚ) (s : KeepState)
    (h : (keepStep mrate cost s).netPosition ≤ 0) :
    (keepStep mrate cost s).totalReturns ≤ s.totalReturns := by
  rw [keepStep] at h ⊢
  by_cases hp : 0 < s.netPosition - cost
  · rw [if_pos hp] at h ⊢
    simp only at h ⊢
    nlinarith
  · rw [if_neg hp]

/-- Lifting of `keepStep_no_return` to the iterated tracker state. -/
theorem keepStateAt_no_return (costs : ℕ → ℚ) (mrate init : ℚ) (i : ℕ)
    (h : (keepStateAt costs mrate init (i + 1)).netPosition ≤ 0) :
    (keepStateAt costs mrate init (i + 1)).totalReturns
      ≤ (keepStateAt costs mrate init i).totalReturns := by
  rw [keepStateAt] at h ⊢
  exact keepStep_no_return _ _ _ h

/-- C6: for every cash-flow array, rate, horizon, initial injection and
month `i` inside the horizon, if the recorded net position at the end of
month `i` is non-positive then the cumulative returns did not increase
that month (month 0 is compared against the zero baseline). -/
theorem deficit_no_return (costs : List ℚ) (rate : ℚ) (m : ℕ) (init : ℚ) (i : ℕ)
    (hi : i < m)
    (hneg : (calculateKeepInvestmentTracking costs rate m init).monthlyKeepNetPosition.getD
        i 0 ≤ 0) :
    (calculateKeepInvestmentTracking costs rate m init).monthlyKeepInvestmentReturns.getD i 0
      ≤ (if i = 0 then 0
         else (calculateKeepInvestmentTracking costs rate m
            init).monthlyKeepInvestmentReturns.getD (i - 1) 0) := by
  rw [keepTracking_netPosition_getD costs rate m init i hi] at hneg
  rw [keepTracking_returns_getD costs rate m init i hi]
  have hstep := keepStateAt_no_return (fun j => costs.getD j 0) (rate / 100 / 12) init i hneg
  by_cases h0 : i = 0
  · subst h0
    rw [if_pos rfl]
    exact hstep
  · rw [if_neg h0, keepTracking_returns_getD costs rate m init (i - 1) (by omega)]
    have hsucc : i - 1 + 1 = i := by omega
    rw [hsucc]
    exact hstep

/-- Witness for C6: a single month costing 5 with no income leaves a net
position of -5 and zero cumulative returns. -/
theorem deficit_no_return_witness :
    (calculateKeepInvestmentTracking [5] 0 1 0).monthlyKeepInvestmentReturns.getD 0 0
      ≤ (if (0 : ℕ) = 0 then (0 : ℚ)
         else (calculateKeepInvestmentTracking [5] 0 1 0).monthlyKeepInvestmentReturns.getD
            (0 - 1) 0) :=
  deficit_no_return [5] 0 1 0 0 (by norm_num)
    (by norm_num [calculateKeepInvestmentTracking, keepStateAt, keepStep,
      List.range_succ, getD_range_map])

/-- During the loan term, the recorded post-update balance is the
amortization recursion applied `i + 1` times to the effective loan amount. -/
theorem pmcPost_balance_iter (inputs : CalculatorInputs) (i : ℕ)
    (hin : i < (getEffectiveLoanValues inputs).effectiveLoanTerm) :
    (pmcPost inputs i).currentBalance
      = iterBalance (pmcRate inputs) ((getEffectiveLoanValues inputs).monthlyLoanPayment)
          ((getEffectiveLoanValues inputs).effectiveLoanAmount) (i + 1) := by
  rw [pmcPost, loanBody, if_pos hin]
  simp only
  have hst : (pmcState inputs i).currentBalance
      = iterBalance (pmcRate inputs) ((getEffectiveLoanValues inputs).monthlyLoanPayment)
          ((getEffectiveLoanValues inputs).effectiveLoanAmount) i := by
    rw [pmcState, simStateAt_balance, min_eq_left hin.le]
    rfl
  rw [hst]
  conv_rhs => rw [iterBalance, balanceStep]

/-- The example's recorded balance after 12 payments, in closed form. -/
theorem example_balance12_closed :
    (populateMonthlyCosts exampleInputs).remainingLoanBalance.getD 11 0
      = (400000 - calculateMonthlyPayment 400000 (13 / 2 / 100 / 12) 360 / (13 / 2400))
          * (1 + 13 / 2400) ^ 12
        + calculateMonthlyPayment 400000 (13 / 2 / 100 / 12) 360 / (13 / 2400) := by
  have h11 : (11 : ℕ) < (getEffectiveLoanValues exampleInputs).effectiveLoanTerm := by
    rw [exampleInputs_elv]
    norm_num
  have hr : pmcRate exampleInputs = 13 / 2400 := by
    norm_num [pmcRate, exampleInputs]
  rw [populateMonthlyCosts_balance_getD exampleInputs 11 (by norm_num), if_pos h11,
    pmcPost_balance_iter exampleInputs 11 h11, hr,
    iterBalance_closed _ _ _ (by norm_num), exampleInputs_elv]

/-- C7 counterexample: for the spec's end-to-end example (500,000 price,
400,000 loan at 6.5% over 360 months), the recorded balance after 12
payments is more than 1 away from the spec's figure 395,310 — it is
approximately 395,529.10. -/
theorem example_balance12_not_395310 :
    1 < |(populateMonthlyCosts exampleInputs).remainingLoanBalance.getD 11 0 - 395310| := by
  rw [example_balance12_closed, calculateMonthlyPayment,
    if_neg (by norm_num : ¬ (13 / 2 / 100 / 12 : ℚ) = 0)]
  exact lt_of_lt_of_le (by norm_num) (le_abs_self _)

/-- C7 (amended): for the example input the monthly payment is within
0.005 of 2,528.27, the balance after 12 payments is within 1 of 395,529
(not 395,310), and the balance after 360 payments is exactly 0. -/
theorem example_amortization :
    |(getEffectiveLoanValues exampleInputs).monthlyLoanPayment - 252827 / 100| < 1 / 200 ∧
    |(populateMonthlyCosts exampleInputs).remainingLoanBalance.getD 11 0 - 395529| < 1 ∧
    (populateMonthlyCosts exampleInputs).remainingLoanBalance.getD 359 0 = 0 := by
  refine ⟨?_, ?_, ?_⟩
  · rw [exampleInputs_elv]
    dsimp only
    rw [calculateMonthlyPayment, if_neg (by norm_num : ¬ (13 / 2 / 100 / 12 : ℚ) = 0),
      abs_lt]
    constructor <;> norm_num
  · rw [example_balance12_closed, calculateMonthlyPayment,
      if_neg (by norm_num : ¬ (13 / 2 / 100 / 12 : ℚ) = 0), abs_lt]
    constructor <;> norm_num
  · have h359 : (359 : ℕ) < (getEffectiveLoanValues exampleInputs).effectiveLoanTerm := by
      rw [exampleInputs_elv]
      norm_num
    have hr : pmcRate exampleInputs = 13 / 2400 := by
      norm_num [pmcRate, exampleInputs]
    have hq : (13 / 2 / 100 / 12 : ℚ) = 13 / 2400 := by norm_num
    rw [populateMonthlyCosts_balance_getD exampleInputs 359 (by norm_num), if_pos h359,
      pmcPost_balance_iter exampleInputs 359 h359, hr, exampleInputs_elv]
    dsimp only
    rw [hq]
    exact iterBalance_payment_exact 400000 (13 / 2400) 360 (by norm_num) (by norm_num)

/-- A `sell_vs_keep` variant of the example input with a 10% agent
commission, flat appreciation, and the selling toggle off. -/
def svkInputs : CalculatorInputs :=
  { exampleInputs with
    scenario := ScenarioType.sell_vs_keep
    agentCommission := 10
    appreciationRate := [0]
    includeSelling := false }

set_option maxRecDepth 8000 in
/-- C3 counterexample: the orchestrator treats `sell_vs_keep` as
*always* including selling costs (calculator.ts line 348), not as a
no-selling-costs event: even with the user toggle off, the sale-proceeds
row it computes at month 12 carries a nonzero `totalSellingCosts`. -/
theorem sell_vs_keep_includes_selling :
    shouldIncludeSelling svkInputs = true ∧
    (calculateSaleProceeds svkInputs 12 (List.replicate 360 0) (some 400000)
        (shouldIncludeSelling svkInputs)).totalSellingCosts ≠ some 0 := by
  constructor
  · rfl
  · have h1 : List.range 1 = [0] := rfl
    simp [calculateSaleProceeds, calculateAssetValue, jsGet, truthy, shouldIncludeSelling,
      svkInputs, exampleInputs, h1]

/-- C3 (amended): whenever `calculateSaleProceeds` is called with
`includeSelling = false` — which the orchestrator does only for
`buy_vs_rent` with the selling toggle off, while `sell_vs_keep` always
passes `true` — it returns zero selling costs, zero capital gains, zero
tax, and `netProceeds = salePrice - loanPayoff`. -/
theorem saleProceeds_no_selling (inputs : CalculatorInputs) (months : ℕ)
    (rlb : List ℚ) (ela : Option ℚ) :
    (calculateSaleProceeds inputs months rlb ela false).totalSellingCosts = some 0 ∧
    (calculateSaleProceeds inputs months rlb ela false).capitalGains = some 0 ∧
    (calculateSaleProceeds inputs months rlb ela false).taxOnGains = some 0 ∧
    (calculateSaleProceeds inputs months rlb ela false).netProceeds
      = (do
          let s ← (calculateSaleProceeds inputs months rlb ela false).salePrice
          let lp ← (calculateSaleProceeds inputs months rlb ela false).loanPayoff
          pure (s - lp)) :=
  ⟨rfl, rfl, rfl, rfl⟩

/-- C4 counterexample: `calculateAssetValue(100000, 30, [10,5,3])` takes
its second argument in *months*, so 30 means two full years (factors 1.10
and 1.05) plus a fractional half-year at 3%, which is strictly less than
the claimed thirty-year product `100000 * 1.10 * 1.05 * 1.03^28`. -/
theorem assetValue_month_arg_fails :
    calculateAssetValue 100000 30 [10, 5, 3]
      ≠ some ((100000 * (11 / 10) * (21 / 20) * (103 / 100) ^ 28 : ℝ)) := by
  have h2 : List.range 2 = [0, 1] := rfl
  have heval : calculateAssetValue 100000 30 [10, 5, 3]
      = some ((100000 * (1 + 10 / 100) * (1 + 5 / 100))
          * Real.rpow (1 + 3 / 100) (6 / 12)) := by
    simp [calculateAssetValue, jsGet, h2]
  rw [heval]
  simp only [ne_eq, Option.some_inj]
  apply ne_of_lt
  have hle : Real.rpow (1 + 3 / 100) (6 / 12) ≤ (1 + 3 / 100 : ℝ) := by
    have h1 := Real.rpow_le_rpow_of_exponent_le (by norm_num : (1 : ℝ) ≤ 1 + 3 / 100)
      (by norm_num : (6 / 12 : ℝ) ≤ 1)
    rwa [Real.rpow_one] at h1
  have hpos : (0 : ℝ) < 100000 * (1 + 10 / 100) * (1 + 5 / 100) := by norm_num
  calc (100000 * (1 + 10 / 100) * (1 + 5 / 100) : ℝ) * Real.rpow (1 + 3 / 100) (6 / 12)
      ≤ (100000 * (1 + 10 / 100) * (1 + 5 / 100)) * (1 + 3 / 100) :=
        mul_le_mul_of_nonneg_left hle hpos.le
    _ < 100000 * (11 / 10) * (21 / 20) * (103 / 100) ^ 28 := by norm_num

/-- C4 (amended): over a 360-month (30-year) horizon the example
appreciation array gives exactly the claimed deterministic product:
year 1 at 10%, year 2 at 5%, years 3-30 at 3% each. -/
theorem assetValue_years_product :
    calculateAssetValue 100000 360 [10, 5, 3]
      = some ((100000 * (11 / 10) * (21 / 20) * (103 / 100) ^ 28 : ℝ)) := by
  have h30 : List.range 30 = [0, 1, 2, 3, 4, 5, 6, 7, 8, 9, 10, 11, 12, 13, 14,
    15, 16, 17, 18, 19, 20, 21, 22, 23, 24, 25, 26, 27, 28, 29] := rfl
  simp [calculateAssetValue, jsGet, h30]
  norm_num

/-- The example input with an (invalid) empty appreciation array. -/
def emptyRatesInputs : CalculatorInputs :=
  { exampleInputs with appreciationRate := [] }

/-- C5 counterexample: the engine does not fail fast on either degenerate
input.  A zero-length appreciation array makes `calculateAssetValue`
produce NaN (an out-of-bounds read at index -1, modelled `none`) that
flows on silently, and a monthly rate of exactly -100% makes
`calculateMonthlyPayment` return the ordinary number 0 — the amortization
denominator is `0^360 - 1 = -1`, not 0 — with no rejection anywhere. -/
theorem degenerate_inputs_no_reject :
    calculateAssetValue 100000 12 [] = none ∧
    calculateMonthlyPayment 400000 (-1) 360 = 0 := by
  constructor
  · have h1 : List.range 1 = [0] := rfl
    simp [calculateAssetValue, jsGet, h1]
  · rw [calculateMonthlyPayment, if_neg (by norm_num : ¬ (-1 : ℚ) = 0)]
    norm_num

set_option maxRecDepth 8000 in
/-- C5 (amended): the engine never rejects the two degenerate inputs: the
empty rate array yields NaN (`none`) from `calculateAssetValue`, and that
NaN propagates silently into the sale price of `calculateSaleProceeds`;
the -100% monthly rate yields the plain value 0 from
`calculateMonthlyPayment`.  (Every function of the embedding is total, so
no input throws.) -/
theorem degenerate_inputs_propagate :
    calculateAssetValue 100000 12 [] = none ∧
    (calculateSaleProceeds emptyRatesInputs 12 (List.replicate 360 0) (some 400000)
        true).salePrice = none ∧
    calculateMonthlyPayment 400000 (-1) 360 = 0 := by
  have h1 : List.range 1 = [0] := rfl
  refine ⟨?_, ?_, ?_⟩
  · simp [calculateAssetValue, jsGet, h1]
  · simp [calculateSaleProceeds, calculateAssetValue, jsGet, truthy, emptyRatesInputs,
      exampleInputs, h1]
  · rw [calculateMonthlyPayment, if_neg (by norm_num : ¬ (-1 : ℚ) = 0)]
    norm_num
